import Mathlib

/-!
Verification of the archgw brightstaff routing core: a shallow embedding of
`router_model_v1.rs` (budget-trimmed routing-prompt builder and routing-response
parser) and `chat_completions.rs` (size-limited proxy handler with a bounded
streaming relay), with theorems checking the natural-language specification
against the embedded code.
-/

set_option maxRecDepth 100000

namespace Archgw

/-! ## Preliminaries -/

/-- Decidable equality for `Except`, so concrete parser results can be
checked by `decide`. -/
def exceptDecEq {ε α : Type} [DecidableEq ε] [DecidableEq α] :
    DecidableEq (Except ε α)
  | .error a, .error b =>
    if h : a = b then .isTrue (by rw [h]) else
      .isFalse (by intro hc; cases hc; exact h rfl)
  | .error _, .ok _ => .isFalse (by intro h; cases h)
  | .ok _, .error _ => .isFalse (by intro h; cases h)
  | .ok a, .ok b =>
    if h : a = b then .isTrue (by rw [h]) else
      .isFalse (by intro hc; cases hc; exact h rfl)

instance {ε α : Type} [DecidableEq ε] [DecidableEq α] : DecidableEq (Except ε α) :=
  exceptDecEq

/-- Scan step for `str::replace`: at each position, a pattern match emits the
replacement and skips the matched characters; otherwise one character is
copied. The fuel is the input length (each step consumes at least one
character of a non-empty pattern's input). -/
def replaceList (pat rep : List Char) : Nat → List Char → List Char
  | _, [] => []
  | 0, l => l
  | fuel + 1, c :: rest =>
    if pat.isPrefixOf (c :: rest) then
      rep ++ replaceList pat rep fuel (List.drop pat.length (c :: rest))
    else
      c :: replaceList pat rep fuel rest

/-- Rust `str::replace`: replace all non-overlapping occurrences of the
pattern, scanning left to right (the routing core never uses an empty
pattern; UTF-8 self-synchronization makes the source's byte-level scan agree
with this character-level scan). -/
def strReplace (s pat rep : String) : String :=
  if pat.data.isEmpty then s
  else String.mk (replaceList pat.data rep.data s.data.length s.data)

/-- Rust `str::starts_with` for a string pattern. -/
def strStartsWith (s pre : String) : Bool := pre.data.isPrefixOf s.data

/-- Rust `str::ends_with` for a string pattern. -/
def strEndsWith (s suf : String) : Bool := suf.data.isSuffixOf s.data

/-- Drop the first `n` characters (the source strips only ASCII fences, so
character count and byte count agree). -/
def strDrop (s : String) (n : Nat) : String := String.mk (s.data.drop n)

/-- Drop the last `n` characters. -/
def strDropRight (s : String) (n : Nat) : String :=
  String.mk (s.data.take (s.data.length - n))

/-! ## Data model (`common::api::open_ai`, modelled from the spec)

The `common` crate is external to the analysed sources; its shapes are
modelled from the spec's data-model section, keeping only what the routing
core reads. -/

/-- Modelled from the spec: `ContentType` from the external `common` crate.
The routing core only ever reads message content through its `Display`
rendering and its JSON serialization, both of which treat text content as a
plain string; the `Text` variant carries that string. -/
inductive ContentType where
  | Text : String → ContentType
deriving Repr, DecidableEq

/-- Embedding of `ContentType::to_string()` (the `Display` impl): text content renders as
the raw string, as pinned by the source tests. -/
def ContentType.toStr : ContentType → String
  | .Text s => s

/-- Modelled from the spec: `Message` from the external `common` crate,
`{ role, content: optional structured content, tool-call metadata }`. -/
structure Message where
  role : String
  content : Option ContentType
  model : Option String := none
  tool_calls : Option Unit := none
  tool_call_id : Option String := none
deriving Repr, DecidableEq

/-- Modelled from the spec: the canonical `ChatCompletionsRequest` shape
`{ model, messages, tools, stream, metadata }`. -/
structure ChatCompletionsRequest where
  model : String
  messages : List Message
  tools : Option Unit := none
  stream : Bool
  stream_options : Option Unit := none
  metadata : Option Unit := none
deriving Repr, DecidableEq

/-- Modelled from the spec: `common::consts::SYSTEM_ROLE`. -/
def SYSTEM_ROLE : String := "system"

/-- Modelled from the spec: `common::consts::USER_ROLE`. -/
def USER_ROLE : String := "user"

/-! ## JSON string serialization (`serde_json::to_string` on message content)

`generate_request` renders each kept message as
`format!("{}: {}", role, serde_json::to_string(&content))`. `serde_json`
serializes an `Option` as `null`/the value, a text content as a JSON string
with `"`, `\` and control characters escaped (control characters other than
the named short escapes become lowercase `\u00XX`). -/

/-- Lowercase hex digit for a value below 16. -/
def hexDigit (n : Nat) : Char :=
  if n < 10 then Char.ofNat (48 + n) else Char.ofNat (87 + n)

/-- serde_json's escaping of a single character inside a JSON string. -/
def jsonEscapeChar (c : Char) : List Char :=
  if c = '"' then ['\\', '"']
  else if c = '\\' then ['\\', '\\']
  else if c.toNat = 8 then ['\\', 'b']
  else if c.toNat = 9 then ['\\', 't']
  else if c.toNat = 10 then ['\\', 'n']
  else if c.toNat = 12 then ['\\', 'f']
  else if c.toNat = 13 then ['\\', 'r']
  else if c.toNat < 32 then
    ['\\', 'u', '0', '0', hexDigit (c.toNat / 16), hexDigit (c.toNat % 16)]
  else [c]

/-- Embedding of `serde_json::to_string` of a Rust `String`: quoted, escaped. -/
def jsonEncodeString (s : String) : String :=
  "\"" ++ String.mk (s.data.flatMap jsonEscapeChar) ++ "\""

/-- Embedding of `serde_json::to_string(&m.content)` for `content : Option ContentType`:
`None` serializes as `null`, text content as a JSON string. -/
def jsonEncodeContent : Option ContentType → String
  | none => "null"
  | some (.Text s) => jsonEncodeString s

/-! ## RouterModelV1 (`router_model_v1.rs`) -/

/-- Constant `MAX_TOKEN_LEN`: default max token length for the routing model. -/
def MAX_TOKEN_LEN : Nat := 2048

/-- Constant `TOKEN_LENGTH_DIVISOR`: approximate token length divisor for UTF-8
characters. -/
def TOKEN_LENGTH_DIVISOR : Nat := 4

/-- Constant `ARCH_ROUTER_V1_SYSTEM_PROMPT`: the fixed routing-prompt template with
`{routes}` and `{conversation}` placeholders (verbatim from the source). -/
def ARCH_ROUTER_V1_SYSTEM_PROMPT : String :=
  "\nYou are a helpful assistant designed to find the best suited route.\nYou are provided with route description within <routes></routes> XML tags:\n<routes>\n{routes}\n</routes>\n\nYour task is to decide which route is best suit with user intent on the conversation in <conversation></conversation> XML tags.  Follow the instruction:\n1. If the latest intent from user is irrelevant, response with empty route \x7b\"route\": \"\"\x7d.\n2. If the user request is full fill and user thank or ending the conversation , response with empty route \x7b\"route\": \"\"\x7d.\n3. Understand user latest intent and find the best match route in <routes></routes> xml tags.\n\nBased on your analysis, provide your response in the following JSON formats if you decide to match any route:\n\x7b\"route\": \"route_name\"\x7d\n\n\n<conversation>\n{conversation}\n</conversation>\n"

/-- Struct `RouterModelV1 { llm_providers_with_usage_yaml, routing_model,
max_token_length }`. -/
structure RouterModelV1 where
  llm_providers_with_usage_yaml : String
  routing_model : String
  max_token_length : Nat
deriving Repr, DecidableEq

/-- The per-message token estimate inside `generate_request`'s budget walk:
`message.content.unwrap_or(Text("")).to_string().len() / TOKEN_LENGTH_DIVISOR`
(`len` is the UTF-8 byte length). -/
def messageTokenCount (m : Message) : Nat :=
  ((m.content.getD (.Text "")).toStr).utf8ByteSize / TOKEN_LENGTH_DIVISOR

/-- The base token estimate the walk starts from:
`ARCH_ROUTER_V1_SYSTEM_PROMPT.len() / TOKEN_LENGTH_DIVISOR`. -/
def basePromptEstimate : Nat :=
  ARCH_ROUTER_V1_SYSTEM_PROMPT.utf8ByteSize / TOKEN_LENGTH_DIVISOR

/-- The newest-to-oldest budget walk of `generate_request`: `l` is the
system-filtered conversation reversed (newest first), `tc` the running token
count. Each message within budget is pushed; the first message that drives
the running total over `max_token_length` stops the walk, and is itself
pushed exactly when its role is `USER_ROLE`. The result is in push
(newest-first) order, as in the source's `selected_messages_list`. -/
def selectLoop (maxLen : Nat) : Nat → List Message → List Message
  | _, [] => []
  | tc, m :: rest =>
    if tc + messageTokenCount m > maxLen then
      if m.role = USER_ROLE then [m] else []
    else
      m :: selectLoop maxLen (tc + messageTokenCount m) rest

/-- The system-filtered conversation of `generate_request`
(`messages.iter().filter(|m| m.role != SYSTEM_ROLE)`), in original order. -/
def filteredMessages (messages : List Message) : List Message :=
  messages.filter (fun m => m.role ≠ SYSTEM_ROLE)

/-- State of `selected_messages_list` after the walk and the empty fallback
(`if selected_messages_list.is_empty() { push(messages_vec.last()) }`),
still in push (newest-first) order. -/
def selectedAfterFallback (maxLen : Nat) (messages : List Message) : List Message :=
  let mv := filteredMessages messages
  let sel := selectLoop maxLen basePromptEstimate mv.reverse
  if sel.isEmpty then
    match mv.getLast? with
    | some last => [last]
    | none => []
  else sel

/-- The kept messages in rendering (original chronological) order:
`selected_messages_list.iter().rev()`. -/
def selectedForPrompt (maxLen : Nat) (messages : List Message) : List Message :=
  (selectedAfterFallback maxLen messages).reverse

/-- One rendered conversation line:
`format!("{}: {}", m.role, serde_json::to_string(&m.content))`. -/
def renderLine (m : Message) : String :=
  m.role ++ ": " ++ jsonEncodeContent m.content

/-- The rendered conversation section: kept messages in original order,
one line each, joined by newlines. -/
def conversationSection (maxLen : Nat) (messages : List Message) : String :=
  String.intercalate "\n" ((selectedForPrompt maxLen messages).map renderLine)

/-- Embedding of `RouterModelV1::generate_request`: filter system messages, budget-walk
newest-to-oldest, fall back to `messages_vec.last()` when nothing was
selected, render the survivors in original order, substitute `{routes}` and
`{conversation}` in the template, and wrap the result as a single synthetic
non-streaming `user` message for the routing model. -/
def RouterModelV1.generate_request (self : RouterModelV1) (messages : List Message) :
    ChatCompletionsRequest :=
  let messages_content :=
    strReplace (strReplace ARCH_ROUTER_V1_SYSTEM_PROMPT "{routes}" self.llm_providers_with_usage_yaml)
      "{conversation}" (conversationSection self.max_token_length messages)
  { model := self.routing_model
    messages := [{ content := some (.Text messages_content)
                   role := USER_ROLE
                   model := none
                   tool_calls := none
                   tool_call_id := none }]
    tools := none
    stream := false
    stream_options := none
    metadata := none }

/-! ## JSON parsing (`serde_json::from_str::<LlmRouterResponse>`)

`parse_response` hands the repaired text to `serde_json`. The JSON grammar
and the derived deserializer for `LlmRouterResponse { route: Option<String> }`
are embedded below: a strict JSON value parser (whole-input, standard
escapes, no control characters in strings, strict number grammar) followed
by the derived struct decoding from a JSON object (missing `route` defaults
to `None`, `null` maps to `None`, a string maps to `Some`, any other value
type or a duplicated field is a decode error). serde's positional decoding
of a struct from a JSON array is not exercised by the routing path and is
not modelled. -/

/-- A parsed JSON value. Numeric literals keep their text: the routing core
never reads a numeric value. -/
inductive Json where
  | null
  | bool (b : Bool)
  | num (lit : String)
  | str (s : String)
  | arr (elems : List Json)
  | obj (fields : List (String × Json))
deriving Repr

/-- Skip JSON whitespace (space, tab, line feed, carriage return). -/
def skipWs : List Char → List Char
  | c :: rest =>
    if c = ' ' ∨ c = '\t' ∨ c = '\n' ∨ c = '\r' then skipWs rest else c :: rest
  | [] => []

/-- Hex digit value. -/
def hexVal (c : Char) : Option Nat :=
  if '0' ≤ c ∧ c ≤ '9' then some (c.toNat - 48)
  else if 'a' ≤ c ∧ c ≤ 'f' then some (c.toNat - 87)
  else if 'A' ≤ c ∧ c ≤ 'F' then some (c.toNat - 55)
  else none

/-- Four hex digits of a `\uXXXX` escape. -/
def hex4 : List Char → Option (Nat × List Char)
  | c1 :: c2 :: c3 :: c4 :: rest => do
    let v1 ← hexVal c1
    let v2 ← hexVal c2
    let v3 ← hexVal c3
    let v4 ← hexVal c4
    some (((v1 * 16 + v2) * 16 + v3) * 16 + v4, rest)
  | _ => none

/-- Parse the body of a JSON string (the opening quote already consumed),
returning the decoded characters and the input past the closing quote.
Control characters are rejected; escapes (including surrogate pairs) are
decoded. `fuel` bounds the recursion. -/
def parseStringBody : Nat → List Char → Except String (List Char × List Char)
  | 0, _ => .error "internal fuel exhausted"
  | _ + 1, [] => .error "EOF while parsing a string"
  | fuel + 1, c :: rest =>
    if c = '"' then .ok ([], rest)
    else if c = '\\' then
      match rest with
      | [] => .error "EOF while parsing a string"
      | e :: rest' =>
        let cont (decoded : Char) (rem : List Char) : Except String (List Char × List Char) :=
          match parseStringBody fuel rem with
          | .ok (cs, rem') => .ok (decoded :: cs, rem')
          | .error msg => .error msg
        if e = '"' then cont '"' rest'
        else if e = '\\' then cont '\\' rest'
        else if e = '/' then cont '/' rest'
        else if e = 'b' then cont (Char.ofNat 8) rest'
        else if e = 'f' then cont (Char.ofNat 12) rest'
        else if e = 'n' then cont '\n' rest'
        else if e = 'r' then cont '\r' rest'
        else if e = 't' then cont '\t' rest'
        else if e = 'u' then
          match hex4 rest' with
          | none => .error "invalid hex escape"
          | some (n, rem) =>
            if 0xD800 ≤ n ∧ n ≤ 0xDBFF then
              match rem with
              | '\\' :: 'u' :: rem2 =>
                match hex4 rem2 with
                | some (lo, rem3) =>
                  if 0xDC00 ≤ lo ∧ lo ≤ 0xDFFF then
                    cont (Char.ofNat (0x10000 + (n - 0xD800) * 0x400 + (lo - 0xDC00))) rem3
                  else .error "unexpected surrogate pair"
                | none => .error "invalid hex escape"
              | _ => .error "unexpected end of hex escape"
            else if 0xDC00 ≤ n ∧ n ≤ 0xDFFF then .error "lone trailing surrogate"
            else cont (Char.ofNat n) rem
        else .error "invalid escape"
    else if c.toNat < 32 then .error "control character in string"
    else
      match parseStringBody fuel rest with
      | .ok (cs, rem) => .ok (c :: cs, rem)
      | .error msg => .error msg

/-- Longest digit prefix. -/
def takeDigits : List Char → (List Char × List Char)
  | [] => ([], [])
  | c :: rest =>
    if '0' ≤ c ∧ c ≤ '9' then
      let (ds, rem) := takeDigits rest
      (c :: ds, rem)
    else ([], c :: rest)

/-- Parse a JSON number literal (strict grammar: `-?(0|[1-9][0-9]*)`
followed by optional fraction and exponent), returning its text. -/
def parseNumber (input : List Char) : Except String (String × List Char) :=
  let (sign, afterSign) :=
    match input with
    | '-' :: rest => (['-'], rest)
    | rest => (([] : List Char), rest)
  match afterSign with
  | [] => .error "EOF while parsing a number"
  | c :: rest =>
    if c = '0' then
      -- no leading zeros
      let (intPart, afterInt) := ([c], rest)
      parseNumberTail sign intPart afterInt
    else if '1' ≤ c ∧ c ≤ '9' then
      let (ds, afterInt) := takeDigits rest
      parseNumberTail sign (c :: ds) afterInt
    else .error "invalid number"
where
  /-- Optional fraction and exponent. -/
  parseNumberTail (sign intPart : List Char) (input : List Char) :
      Except String (String × List Char) :=
    let (fracPart, afterFrac) :=
      match input with
      | '.' :: rest =>
        match takeDigits rest with
        | ([], _) => (none, input)
        | (ds, rem) => (some ('.' :: ds), rem)
      | _ => (none, input)
    match fracPart, input with
    | none, '.' :: _ => .error "invalid number"
    | _, _ =>
      let fracChars := fracPart.getD []
      match afterFrac with
      | 'e' :: rest => parseExponent sign intPart fracChars 'e' rest
      | 'E' :: rest => parseExponent sign intPart fracChars 'E' rest
      | _ => .ok (String.mk (sign ++ intPart ++ fracChars), afterFrac)
  /-- Exponent part. -/
  parseExponent (sign intPart fracChars : List Char) (e : Char) (input : List Char) :
      Except String (String × List Char) :=
    let (expSign, afterExpSign) :=
      match input with
      | '+' :: rest => (['+'], rest)
      | '-' :: rest => (['-'], rest)
      | rest => (([] : List Char), rest)
    match takeDigits afterExpSign with
    | ([], _) => .error "invalid number"
    | (ds, rem) => .ok (String.mk (sign ++ intPart ++ fracChars ++ e :: expSign ++ ds), rem)

mutual

/-- Parse one JSON value, leading whitespace already skipped. -/
def parseValue : Nat → List Char → Except String (Json × List Char)
  | 0, _ => .error "internal fuel exhausted"
  | fuel + 1, input =>
    match input with
    | [] => .error "EOF while parsing a value"
    | 'n' :: 'u' :: 'l' :: 'l' :: rest => .ok (.null, rest)
    | 't' :: 'r' :: 'u' :: 'e' :: rest => .ok (.bool true, rest)
    | 'f' :: 'a' :: 'l' :: 's' :: 'e' :: rest => .ok (.bool false, rest)
    | '"' :: rest =>
      match parseStringBody (rest.length + 1) rest with
      | .ok (cs, rem) => .ok (.str (String.mk cs), rem)
      | .error msg => .error msg
    | '{' :: rest =>
      match skipWs rest with
      | '}' :: rem => .ok (.obj [], rem)
      | rest' =>
        match parseMembers fuel rest' with
        | .ok (fields, rem) => .ok (.obj fields, rem)
        | .error msg => .error msg
    | '[' :: rest =>
      match skipWs rest with
      | ']' :: rem => .ok (.arr [], rem)
      | rest' =>
        match parseElems fuel rest' with
        | .ok (elems, rem) => .ok (.arr elems, rem)
        | .error msg => .error msg
    | c :: _ =>
      if c = '-' ∨ ('0' ≤ c ∧ c ≤ '9') then
        match parseNumber input with
        | .ok (lit, rem) => .ok (.num lit, rem)
        | .error msg => .error msg
      else .error "expected value"

/-- Parse the members of a non-empty JSON object, positioned at a key. -/
def parseMembers : Nat → List Char → Except String (List (String × Json) × List Char)
  | 0, _ => .error "internal fuel exhausted"
  | fuel + 1, input =>
    match input with
    | '"' :: rest =>
      match parseStringBody (rest.length + 1) rest with
      | .error msg => .error msg
      | .ok (keyChars, rem) =>
        match skipWs rem with
        | ':' :: rem' =>
          match parseValue fuel (skipWs rem') with
          | .error msg => .error msg
          | .ok (v, rem'') =>
            match skipWs rem'' with
            | ',' :: rem3 =>
              match parseMembers fuel (skipWs rem3) with
              | .ok (fields, rem4) => .ok ((String.mk keyChars, v) :: fields, rem4)
              | .error msg => .error msg
            | '}' :: rem3 => .ok ([(String.mk keyChars, v)], rem3)
            | _ => .error "expected comma or closing brace"
        | _ => .error "expected colon"
    | _ => .error "key must be a string"

/-- Parse the elements of a non-empty JSON array, positioned at a value. -/
def parseElems : Nat → List Char → Except String (List Json × List Char)
  | 0, _ => .error "internal fuel exhausted"
  | fuel + 1, input =>
    match parseValue fuel input with
    | .error msg => .error msg
    | .ok (v, rem) =>
      match skipWs rem with
      | ',' :: rem' =>
        match parseElems fuel (skipWs rem') with
        | .ok (elems, rem'') => .ok (v :: elems, rem'')
        | .error msg => .error msg
      | ']' :: rem' => .ok ([v], rem')
      | _ => .error "expected comma or closing bracket"

end

/-- Embedding of `serde_json::from_str` as a JSON value: parse one value surrounded only
by whitespace. -/
def jsonFromStr (s : String) : Except String Json :=
  let cs := skipWs s.data
  match parseValue (s.data.length + 2) cs with
  | .error msg => .error msg
  | .ok (v, rest) =>
    match skipWs rest with
    | [] => .ok v
    | _ => .error "trailing characters"

/-- The derived deserialization of `LlmRouterResponse { route: Option<String> }`
from a JSON object: a missing `route` field defaults to `None`, `null`
decodes to `None`, a string to `Some`; a value of any other type, a
duplicated `route` field, or a non-object top level is a decode error. -/
def decodeLlmRouterResponse : Json → Except String (Option String)
  | .obj fields =>
    match fields.filter (fun f => f.1 = "route") with
    | [] => .ok none
    | [(_, .null)] => .ok none
    | [(_, .str s)] => .ok (some s)
    | [(_, _)] => .error "invalid type for field route"
    | _ => .error "duplicate field route"
  | _ => .error "invalid type: expected struct LlmRouterResponse"

/-- The single-quote character, written by code point. -/
def singleQuote : String := String.mk [Char.ofNat 39]

/-- Embedding of `fix_json_response`: the repair pass — replace every single quote with a
double quote, remove literal backslash-n sequences (the source guards the
replace with a `contains` check, which is a no-op refinement), strip a
leading ```` ```json ```` fence if present, then strip a trailing ```` ``` ````
fence if still present. -/
def fix_json_response (body : String) : String :=
  let u := strReplace body singleQuote "\""
  let u := strReplace u "\\n" ""
  let u := if strStartsWith u "```json" then strDrop u 7 else u
  let u := if strEndsWith u "```" then strDropRight u 3 else u
  u

/-- Embedding of `RouterModelV1::parse_response`: empty input is `Ok(None)`; otherwise the
repaired text is decoded as `LlmRouterResponse`, a missing/empty route
collapses to `None`, and a decode failure propagates as an error. -/
def RouterModelV1.parse_response (_self : RouterModelV1) (content : String) :
    Except String (Option String) :=
  if content.isEmpty then .ok none
  else
    (jsonFromStr (fix_json_response content)).bind (fun j =>
      (decodeLlmRouterResponse j).bind (fun route =>
        let selected_llm := route.getD ""
        if selected_llm.isEmpty then .ok none
        else .ok (some selected_llm)))

/-- Embedding of `RouterModelV1::get_model_name`. -/
def RouterModelV1.get_model_name (self : RouterModelV1) : String :=
  self.routing_model

/-- The response-parser contract as the specification words it: `Ok(None)`
for empty input; otherwise repair (single quotes to double quotes, drop
literal backslash-n sequences, strip a leading ```` ```json ```` fence and a
trailing ```` ``` ```` fence if present) and decode `{ route: optional
string }`, where a missing field, `null`, or empty string resolve to
`Ok(None)`, a non-empty string to `Ok(Some(value))`, and text that is still
not valid JSON is a hard decode failure. -/
def parseResponseSpec (content : String) : Except String (Option String) :=
  if content = "" then .ok none
  else
    let repaired := strReplace (strReplace content singleQuote "\"") "\\n" ""
    let repaired := if strStartsWith repaired "```json" then strDrop repaired 7 else repaired
    let repaired := if strEndsWith repaired "```" then strDropRight repaired 3 else repaired
    (jsonFromStr repaired).bind (fun j =>
      (decodeLlmRouterResponse j).bind (fun route =>
        match route with
        | none => .ok none
        | some s => if s = "" then .ok none else .ok (some s)))

/-! ## The proxy handler (`chat_completions.rs`)

`chat_completion` is an async handler over hyper/reqwest. Its decision
structure is embedded as a pure function over the inbound request's
observable inputs, parameterized by the two external effects it invokes
before forwarding: body deserialization (`serde_json::from_slice`, external
crate) and `RouterService::determine_route` (repository code not among the
analysed sources). The embedding returns either the early error response or
the outbound request it would forward. -/

/-- Modelled from the spec: `common::consts::ARCH_PROVIDER_HINT_HEADER`, the
`x-arch-*`-style provider-hint header name. Only its identity matters. -/
def ARCH_PROVIDER_HINT_HEADER : String := "x-arch-llm-provider-hint"

/-- Constant `u64::MAX`, the size assumed when the body declares no upper bound. -/
def U64_MAX : Nat := 2 ^ 64 - 1

/-- The inbound request as the handler observes it: the body's declared
size-hint upper bound (`None` for e.g. chunked transfer), the header map
(hyper keeps one entry per occurrence), and the raw body bytes. -/
structure InboundRequest where
  sizeHintUpper : Option Nat
  headers : List (String × String)
  body : List Nat
deriving Repr, DecidableEq

/-- The outbound request the handler hands to the HTTP client: endpoint,
augmented headers, body bytes. -/
structure ForwardedRequest where
  endpoint : String
  headers : List (String × String)
  body : List Nat
deriving Repr, DecidableEq

/-- The handler's outcome up to the forwarding step: one of the early error
responses (with its status code and diagnostic body), or the forwarded
request together with the client's streaming flag. -/
inductive HandlerOutcome where
  | earlyResponse (status : Nat) (body : String)
  | forward (req : ForwardedRequest) (stream : Bool)
deriving Repr, DecidableEq

/-- Embedding of `HeaderMap::insert`: sets the single value of a header name, replacing
any previous occurrences. -/
def headersInsert (hs : List (String × String)) (name value : String) :
    List (String × String) :=
  hs.filter (fun p => p.1 ≠ name) ++ [(name, value)]

/-- The parsed fields of the inbound body that the handler reads
(`chat_completion_request.messages` for routing and `.stream` for the relay
branch). -/
structure ParsedChatRequest where
  messages : List Message
  stream : Bool
deriving Repr, DecidableEq

/-- Embedding of `chat_completion` up to the forwarding step. `parseBody` stands for
`serde_json::from_slice::<ChatCompletionsRequest>` and `determine_route` for
`RouterService::determine_route`; both are the handler's only effectful
inputs before the forward. Statuses: 413 payload too large, 400 bad request,
500 routing failure. -/
def chat_completion
    (parseBody : List Nat → Except String ParsedChatRequest)
    (determine_route : List Message → Option String → Except String (Option String))
    (llm_provider_endpoint : String) (request : InboundRequest) : HandlerOutcome :=
  let max := request.sizeHintUpper.getD U64_MAX
  if max > 1024 * 1024 then
    .earlyResponse 413 ("Request body too large: " ++ toString max ++ " bytes")
  else
    let request_headers := request.headers
    let chat_request_bytes := request.body
    match parseBody chat_request_bytes with
    | .error err => .earlyResponse 400 ("Failed to parse request body: " ++ err)
    | .ok chat_completion_request =>
      let trace_parent :=
        (request_headers.find? (fun p => p.1 = "traceparent")).map (fun p => p.2)
      match determine_route chat_completion_request.messages trace_parent with
      | .error err => .earlyResponse 500 ("Failed to determine route: " ++ err)
      | .ok selected_llm =>
        let request_headers :=
          match trace_parent with
          | some tp => headersInsert request_headers "traceparent" tp
          | none => request_headers
        let request_headers :=
          match selected_llm with
          | some llm => headersInsert request_headers ARCH_PROVIDER_HINT_HEADER llm
          | none => request_headers
        .forward
          { endpoint := llm_provider_endpoint
            headers := request_headers
            body := chat_request_bytes }
          chat_completion_request.stream

/-! ## The streaming relay (`chat_completion`, streaming branch)

The streaming branch opens `mpsc::channel::<Bytes>(16)` and spawns a
producer task that pulls items from the upstream byte stream: an `Ok` chunk
is sent into the channel (suspending while the channel holds 16 chunks, and
breaking if the receiver was dropped), an `Err` breaks the loop, and stream
end exits it; the client-facing body drains the receiver in FIFO order. The
concurrency is embedded as a step relation over the relay state with the
producer and the consumer interleaving arbitrarily. -/

/-- One item produced by the upstream byte stream: a chunk of bytes or a
transport error. -/
inductive StreamItem where
  | chunk (data : List Nat)
  | ioError
deriving Repr, DecidableEq

/-- The relay channel capacity: `mpsc::channel::<Bytes>(16)`. -/
def RELAY_CHANNEL_CAPACITY : Nat := 16

/-- The bytes of the chunk items of an upstream item list, in order. -/
def chunkData : List StreamItem → List (List Nat)
  | [] => []
  | .chunk c :: rest => c :: chunkData rest
  | .ioError :: rest => chunkData rest

/-- The relay state: upstream items the producer has not yet pulled, chunks
buffered in the channel (FIFO), chunks already delivered to the client, and
the two termination flags. -/
structure RelayState where
  upstream : List StreamItem
  channel : List (List Nat)
  received : List (List Nat)
  producerDone : Bool
  receiverDropped : Bool
deriving Repr, DecidableEq

/-- The state when the relay is opened on a given upstream. -/
def initRelay (items : List StreamItem) : RelayState :=
  ⟨items, [], [], false, false⟩

/-- One scheduler step of the relay: the producer forwards the next chunk
only while the channel has room and the receiver is alive (`tx.send`
backpressure), stops at an upstream error (`break`, no error frame is
pushed), at end of stream, or at a send failure after the receiver was
dropped; the consumer pops the channel head in FIFO order; the client may
drop the receiver at any time. -/
inductive RelayStep : RelayState → RelayState → Prop where
  | produce (c : List Nat) (rest : List StreamItem) (ch rcv : List (List Nat)) :
      ch.length < RELAY_CHANNEL_CAPACITY →
      RelayStep ⟨.chunk c :: rest, ch, rcv, false, false⟩
                ⟨rest, ch ++ [c], rcv, false, false⟩
  | stopError (rest : List StreamItem) (ch rcv : List (List Nat)) (rd : Bool) :
      RelayStep ⟨.ioError :: rest, ch, rcv, false, rd⟩
                ⟨.ioError :: rest, ch, rcv, true, rd⟩
  | stopEnd (ch rcv : List (List Nat)) (rd : Bool) :
      RelayStep ⟨[], ch, rcv, false, rd⟩ ⟨[], ch, rcv, true, rd⟩
  | stopDropped (up : List StreamItem) (ch rcv : List (List Nat)) :
      RelayStep ⟨up, ch, rcv, false, true⟩ ⟨up, ch, rcv, true, true⟩
  | deliver (c : List Nat) (ch rcv : List (List Nat)) (up : List StreamItem) (pd : Bool) :
      RelayStep ⟨up, c :: ch, rcv, pd, false⟩ ⟨up, ch, rcv ++ [c], pd, false⟩
  | dropReceiver (up : List StreamItem) (ch rcv : List (List Nat)) (pd : Bool) :
      RelayStep ⟨up, ch, rcv, pd, false⟩ ⟨up, ch, rcv, pd, true⟩

/-- All relay states reachable from the opened relay. -/
def RelayReachable (items : List StreamItem) (s : RelayState) : Prop :=
  Relation.ReflTransGen RelayStep (initRelay items) s

/-! ## Structure of the budget walk -/

/-- The budget walk only ever returns an initial segment of the walked
(newest-first) list. -/
lemma selectLoop_prefix (maxLen : Nat) : ∀ (tc : Nat) (l : List Message),
    selectLoop maxLen tc l <+: l := by
  intro tc l
  induction l generalizing tc with
  | nil => simp [selectLoop]
  | cons m rest ih =>
    simp only [selectLoop]
    by_cases h : tc + messageTokenCount m > maxLen
    · simp only [if_pos h]
      by_cases hr : m.role = USER_ROLE
      · simp only [if_pos hr]
        exact ⟨rest, rfl⟩
      · simp only [if_neg hr]
        exact List.nil_prefix
    · simp only [if_neg h]
      obtain ⟨t, ht⟩ := ih (tc + messageTokenCount m)
      exact ⟨t, by rw [List.cons_append, ht]⟩

/-- The kept messages, in rendering order, form a suffix of the
system-filtered conversation: trimming removes only from the oldest end and
never reorders survivors. -/
lemma selectedForPrompt_suffix (maxLen : Nat) (messages : List Message) :
    selectedForPrompt maxLen messages <:+ filteredMessages messages := by
  unfold selectedForPrompt selectedAfterFallback
  set mv := filteredMessages messages with hmv
  by_cases he : (selectLoop maxLen basePromptEstimate mv.reverse).isEmpty
  · simp only [he, if_pos]
    match hlast : mv.getLast? with
    | some last =>
      simp only [List.reverse_cons, List.reverse_nil, List.nil_append]
      exact ⟨mv.dropLast, List.dropLast_append_getLast? last hlast⟩
    | none =>
      simp only [List.reverse_nil]
      exact List.nil_suffix
  · simp only [he, if_neg, Bool.false_eq_true, not_false_iff]
    have hp : selectLoop maxLen basePromptEstimate mv.reverse <+: mv.reverse :=
      selectLoop_prefix maxLen basePromptEstimate mv.reverse
    have : (selectLoop maxLen basePromptEstimate mv.reverse).reverse <:+ mv.reverse.reverse :=
      List.reverse_suffix.mpr hp
    simpa using this

/-- Characterization of the budget walk: if the first `j` walked messages fit
the budget and the `(j+1)`-st (when it exists) overflows it, the walk keeps
exactly those `j` messages, plus the overflowing message exactly when its
role is `user`. -/
lemma selectLoop_eq_take (maxLen : Nat) : ∀ (tc j : Nat) (l : List Message),
    tc + ((l.take j).map messageTokenCount).sum ≤ maxLen →
    (j < l.length → maxLen < tc + ((l.take (j + 1)).map messageTokenCount).sum) →
    selectLoop maxLen tc l =
      l.take j ++ (l[j]?.toList.filter (fun m => m.role = USER_ROLE)) := by
  intro tc j l
  induction l generalizing tc j with
  | nil =>
    intro _ _
    simp [selectLoop]
  | cons m rest ih =>
    intro hfit hbreak
    match j with
    | 0 =>
      have hb : maxLen < tc + messageTokenCount m := by
        have := hbreak (by simp)
        simpa using this
      simp only [selectLoop, if_pos hb]
      by_cases hr : m.role = USER_ROLE
      · simp [hr]
      · simp [hr]
    | k + 1 =>
      have hm : tc + messageTokenCount m ≤ maxLen := by
        simp only [List.take_succ_cons, List.map_cons, List.sum_cons] at hfit
        omega
      have hnotb : ¬ (tc + messageTokenCount m > maxLen) := by omega
      simp only [selectLoop, if_neg hnotb]
      have hfit' : (tc + messageTokenCount m) + ((rest.take k).map messageTokenCount).sum ≤ maxLen := by
        simp only [List.take_succ_cons, List.map_cons, List.sum_cons] at hfit
        omega
      have hbreak' : k < rest.length →
          maxLen < (tc + messageTokenCount m) + ((rest.take (k + 1)).map messageTokenCount).sum := by
        intro hk
        have := hbreak (by simpa using Nat.succ_lt_succ hk)
        simp only [List.take_succ_cons, List.map_cons, List.sum_cons] at this
        omega
      rw [ih (tc + messageTokenCount m) k hfit' hbreak']
      simp

/-! ## Claim theorems for the prompt builder -/

/-- C1 (counterexample): with `max_token_length = 0` every walk breaks at the
first (newest) message; here that message is assistant-role, so the walk keeps
nothing and the fallback fires. The fallback keeps the single *newest*
message (`messages_vec.last()`), not the earliest message of the
system-filtered conversation as the claim states: the earliest message is
the `"old message"` assistant turn, yet the prompt keeps `"new"`. -/
theorem C1_counterexample :
    selectLoop 0 basePromptEstimate
        (filteredMessages
          [⟨"assistant", some (.Text "old message"), none, none, none⟩,
           ⟨"assistant", some (.Text "new"), none, none, none⟩]).reverse = [] ∧
    selectedForPrompt 0
        [⟨"assistant", some (.Text "old message"), none, none, none⟩,
         ⟨"assistant", some (.Text "new"), none, none, none⟩] =
      [⟨"assistant", some (.Text "new"), none, none, none⟩] ∧
    (filteredMessages
        [⟨"assistant", some (.Text "old message"), none, none, none⟩,
         ⟨"assistant", some (.Text "new"), none, none, none⟩]).head? =
      some ⟨"assistant", some (.Text "old message"), none, none, none⟩ ∧
    (⟨"assistant", some (.Text "new"), none, none, none⟩ : Message) ≠
      ⟨"assistant", some (.Text "old message"), none, none, none⟩ := by
  refine ⟨by decide, by decide, by decide, by decide⟩

/-- C1 (amended): if after the newest-to-oldest budget walk no message
remains selected, the builder falls back to keeping the single
*newest*-available message — the *last* message of the system-filtered
conversation in original order (`messages_vec.last()`) — rather than
producing an empty conversation section or failing. -/
theorem C1_amended (maxLen : Nat) (messages : List Message) (last : Message)
    (hsel : selectLoop maxLen basePromptEstimate (filteredMessages messages).reverse = [])
    (hlast : (filteredMessages messages).getLast? = some last) :
    selectedForPrompt maxLen messages = [last] := by
  unfold selectedForPrompt selectedAfterFallback
  simp [hsel, hlast]

/-- C1 (witness): a concrete conversation whose walk keeps nothing; the
fallback keeps its single newest message. -/
theorem C1_amended_witness :
    selectLoop 0 basePromptEstimate
        (filteredMessages [⟨"assistant", some (.Text "hi"), none, none, none⟩]).reverse = [] ∧
    (filteredMessages [⟨"assistant", some (.Text "hi"), none, none, none⟩]).getLast? =
      some ⟨"assistant", some (.Text "hi"), none, none, none⟩ ∧
    selectedForPrompt 0 [⟨"assistant", some (.Text "hi"), none, none, none⟩] =
      [⟨"assistant", some (.Text "hi"), none, none, none⟩] :=
  ⟨by decide, by decide,
    C1_amended 0 [⟨"assistant", some (.Text "hi"), none, none, none⟩]
      ⟨"assistant", some (.Text "hi"), none, none, none⟩ (by decide) (by decide)⟩

/-- C2 (counterexample): with budget 210 the walk visits the newest message
(assistant, fits: 203 + 0 ≤ 210), then breaks on the older 32-character user
message (203 + 0 + 8 > 210). The breaking message is *not* the most recent
one visited, yet because its role is `user` the code keeps it — contradicting
the claim that only a breaking message that is both most-recent and
user-role is kept. -/
theorem C2_counterexample :
    basePromptEstimate +
        messageTokenCount ⟨"assistant", some (.Text "ok"), none, none, none⟩ ≤ 210 ∧
    210 < basePromptEstimate +
        messageTokenCount ⟨"assistant", some (.Text "ok"), none, none, none⟩ +
        messageTokenCount ⟨"user", some (.Text "aaaaaaaaaaaaaaaaaaaaaaaaaaaaaaaa"), none, none, none⟩ ∧
    selectedForPrompt 210
        [⟨"user", some (.Text "aaaaaaaaaaaaaaaaaaaaaaaaaaaaaaaa"), none, none, none⟩,
         ⟨"assistant", some (.Text "ok"), none, none, none⟩] =
      [⟨"user", some (.Text "aaaaaaaaaaaaaaaaaaaaaaaaaaaaaaaa"), none, none, none⟩,
       ⟨"assistant", some (.Text "ok"), none, none, none⟩] ∧
    (filteredMessages
        [⟨"user", some (.Text "aaaaaaaaaaaaaaaaaaaaaaaaaaaaaaaa"), none, none, none⟩,
         ⟨"assistant", some (.Text "ok"), none, none, none⟩]).getLast? =
      some ⟨"assistant", some (.Text "ok"), none, none, none⟩ ∧
    (⟨"user", some (.Text "aaaaaaaaaaaaaaaaaaaaaaaaaaaaaaaa"), none, none, none⟩ : Message) ≠
      ⟨"assistant", some (.Text "ok"), none, none, none⟩ := by
  refine ⟨by decide, by decide, by decide, by decide, by decide⟩

/-- C2 (amended): the newest-to-oldest budget walk stops at the first message
whose addition makes the running estimated total (base template estimate plus
per-message estimates) exceed `max_token_length`; that breaking message and
all older messages are excluded, with one exception: the breaking message is
kept whenever its role is `user` — regardless of whether it is the first
message visited. -/
theorem C2_amended (maxLen : Nat) (messages : List Message) (j : Nat)
    (hfit : basePromptEstimate +
        ((((filteredMessages messages).reverse).take j).map messageTokenCount).sum ≤ maxLen)
    (hbreak : j < (filteredMessages messages).reverse.length →
      maxLen < basePromptEstimate +
        ((((filteredMessages messages).reverse).take (j + 1)).map messageTokenCount).sum) :
    selectLoop maxLen basePromptEstimate (filteredMessages messages).reverse =
      ((filteredMessages messages).reverse).take j ++
        (((filteredMessages messages).reverse)[j]?.toList.filter
          (fun m => m.role = USER_ROLE)) :=
  selectLoop_eq_take maxLen basePromptEstimate j (filteredMessages messages).reverse hfit hbreak

/-- C2 (witness): the counterexample conversation at budget 210 with `j = 1`:
the newest (assistant) message fits, the older user message breaks the budget
and is kept because of its `user` role. -/
theorem C2_amended_witness :
    (basePromptEstimate +
        ((((filteredMessages
              [⟨"user", some (.Text "aaaaaaaaaaaaaaaaaaaaaaaaaaaaaaaa"), none, none, none⟩,
               ⟨"assistant", some (.Text "ok"), none, none, none⟩]).reverse).take 1).map
            messageTokenCount).sum ≤ 210) ∧
    selectLoop 210 basePromptEstimate
        (filteredMessages
          [⟨"user", some (.Text "aaaaaaaaaaaaaaaaaaaaaaaaaaaaaaaa"), none, none, none⟩,
           ⟨"assistant", some (.Text "ok"), none, none, none⟩]).reverse =
      ((filteredMessages
          [⟨"user", some (.Text "aaaaaaaaaaaaaaaaaaaaaaaaaaaaaaaa"), none, none, none⟩,
           ⟨"assistant", some (.Text "ok"), none, none, none⟩]).reverse).take 1 ++
        (((filteredMessages
            [⟨"user", some (.Text "aaaaaaaaaaaaaaaaaaaaaaaaaaaaaaaa"), none, none, none⟩,
             ⟨"assistant", some (.Text "ok"), none, none, none⟩]).reverse)[1]?.toList.filter
          (fun m => m.role = USER_ROLE)) :=
  ⟨by decide,
    C2_amended 210
      [⟨"user", some (.Text "aaaaaaaaaaaaaaaaaaaaaaaaaaaaaaaa"), none, none, none⟩,
       ⟨"assistant", some (.Text "ok"), none, none, none⟩] 1
      (by decide) (fun _ => by decide)⟩

/-- C6 (confirmed): the rendered conversation section contains no
system-role message; the kept messages form a suffix of the system-filtered
conversation in original chronological order (trimming removes only oldest
messages and never reorders survivors); and `generate_request` renders each
kept message as a `"role: json-serialized-content"` line, joined by
newlines, substituted into the template. -/
theorem C6_no_system_and_order (maxLen : Nat) (messages : List Message) (yaml rm : String) :
    (∀ m ∈ selectedForPrompt maxLen messages, m.role ≠ SYSTEM_ROLE) ∧
    (selectedForPrompt maxLen messages <:+ filteredMessages messages) ∧
    (RouterModelV1.mk yaml rm maxLen).generate_request messages =
      { model := rm
        messages := [{ role := USER_ROLE
                       content := some (.Text
                        (strReplace (strReplace ARCH_ROUTER_V1_SYSTEM_PROMPT "{routes}" yaml)
                          "{conversation}"
                          (String.intercalate "\n"
                            ((selectedForPrompt maxLen messages).map renderLine))))
                       model := none
                       tool_calls := none
                       tool_call_id := none }]
        tools := none
        stream := false
        stream_options := none
        metadata := none } := by
  refine ⟨?_, selectedForPrompt_suffix maxLen messages, rfl⟩
  intro m hm
  have hsuf := selectedForPrompt_suffix maxLen messages
  have hmem : m ∈ filteredMessages messages := hsuf.subset hm
  unfold filteredMessages at hmem
  rw [List.mem_filter] at hmem
  simpa using hmem.2

/-! ## Claim theorems for the response parser -/

/-- Congruence for `Except.bind` in the second argument. -/
lemma exceptBindCongr {α : Type} (r : Except String α)
    (f g : α → Except String (Option String)) (hfg : ∀ x, f x = g x) :
    r.bind f = r.bind g := by
  cases r with
  | error msg => rfl
  | ok x => exact hfg x

/-- C5 (confirmed): `parse_response` implements the specified contract
exactly — empty input yields `Ok(None)`; otherwise the repair pass runs and
the repaired text is decoded as `{ route: optional string }` with
missing/null/empty collapsing to `Ok(None)`, non-empty strings to
`Ok(Some(s))`, and malformed-after-repair text to an error — together with
the specification's concrete vectors. -/
theorem C5_parse_response_contract :
    (∀ (self : RouterModelV1) (content : String),
      self.parse_response content = parseResponseSpec content) ∧
    (RouterModelV1.mk "" "m" 2048).parse_response "" = .ok none ∧
    (RouterModelV1.mk "" "m" 2048).parse_response "\x7b\x7d" = .ok none ∧
    (RouterModelV1.mk "" "m" 2048).parse_response "\x7b\"route\": null\x7d" = .ok none ∧
    (RouterModelV1.mk "" "m" 2048).parse_response "\x7b\"route\": \"\"\x7d" = .ok none ∧
    (RouterModelV1.mk "" "m" 2048).parse_response "\x7b\"route\": \"route1\"\x7d" =
      .ok (some "route1") ∧
    (RouterModelV1.mk "" "m" 2048).parse_response
        ("\x7b" ++ singleQuote ++ "route" ++ singleQuote ++ ": " ++ singleQuote ++ "route2" ++
          singleQuote ++ "\x7d" ++ "\\n") = .ok (some "route2") ∧
    (RouterModelV1.mk "" "m" 2048).parse_response
        "```json\n\x7b\"route\": \"route1\"\x7d\n```" = .ok (some "route1") ∧
    (RouterModelV1.mk "" "m" 2048).parse_response "\x7b\"route\": \"route1\"" =
      .error "expected comma or closing brace" := by
  refine ⟨?_, by decide, by decide, by decide, by decide, by decide, by decide, by decide,
    by decide⟩
  intro self content
  show RouterModelV1.parse_response self content = parseResponseSpec content
  unfold RouterModelV1.parse_response parseResponseSpec
  by_cases h : content = ""
  · subst h
    rfl
  · have hne : content.isEmpty = false := by
      cases hb : content.isEmpty
      · rfl
      · exact (h ((String.isEmpty_iff content).mp hb)).elim
    have hfix :
        (let repaired := strReplace (strReplace content singleQuote "\"") "\\n" ""
         let repaired := if strStartsWith repaired "```json" then strDrop repaired 7 else repaired
         if strEndsWith repaired "```" then strDropRight repaired 3 else repaired) =
        fix_json_response content := rfl
    simp only [hne, Bool.false_eq_true, if_false, if_neg h, hfix]
    refine exceptBindCongr (jsonFromStr (fix_json_response content)) _ _ (fun j => ?_)
    refine exceptBindCongr (decodeLlmRouterResponse j) _ _ (fun route => ?_)
    cases route with
    | none => rfl
    | some s =>
      by_cases hs : s = ""
      · subst hs
        rfl
      · have hse : s.isEmpty = false := by
          cases hb : s.isEmpty
          · rfl
          · exact (hs ((String.isEmpty_iff s).mp hb)).elim
        simp [hse, hs]

/-- C10 (confirmed): `{"route": "bob's-route"}` is well-formed JSON whose
decoded route is `bob's-route`, but the repair pass turns its single quote
into a double quote, so `parse_response` returns a decode error instead of
`Ok(Some("bob's-route"))`. -/
theorem C10_single_quote_corruption :
    (jsonFromStr ("\x7b\"route\": \"bob" ++ singleQuote ++ "s-route\"\x7d") >>=
        decodeLlmRouterResponse) = .ok (some ("bob" ++ singleQuote ++ "s-route")) ∧
    fix_json_response ("\x7b\"route\": \"bob" ++ singleQuote ++ "s-route\"\x7d") =
      "\x7b\"route\": \"bob\"s-route\"\x7d" ∧
    (RouterModelV1.mk "" "m" 2048).parse_response
        ("\x7b\"route\": \"bob" ++ singleQuote ++ "s-route\"\x7d") =
      .error "expected comma or closing brace" ∧
    (RouterModelV1.mk "" "m" 2048).parse_response
        ("\x7b\"route\": \"bob" ++ singleQuote ++ "s-route\"\x7d") ≠
      .ok (some ("bob" ++ singleQuote ++ "s-route")) := by
  refine ⟨rfl, by decide, by decide, by decide⟩

/-! ## Header bookkeeping lemmas -/

/-- Filtering for one header name after deleting a different name is the
same as filtering the original map. -/
lemma filter_eq_of_filter_ne (hs : List (String × String)) (n m : String) (hnm : m ≠ n) :
    (hs.filter (fun q => q.1 ≠ n)).filter (fun q => q.1 = m) =
      hs.filter (fun q => q.1 = m) := by
  rw [List.filter_filter]
  apply List.filter_congr
  intro a _
  by_cases h : a.1 = m
  · simp [h, hnm]
  · simp [h]

/-- After `HeaderMap::insert` of a different name, the entries for a header
name are unchanged. -/
lemma filter_headersInsert_other (hs : List (String × String)) (n m v : String)
    (hnm : m ≠ n) :
    (headersInsert hs n v).filter (fun q => q.1 = m) =
      hs.filter (fun q => q.1 = m) := by
  unfold headersInsert
  rw [List.filter_append, filter_eq_of_filter_ne hs n m hnm]
  have hne : ¬ n = m := fun h => hnm h.symm
  have : [(n, v)].filter (fun q : String × String => q.1 = m) = [] := by
    simp [List.filter_cons, hne]
  rw [this, List.append_nil]

/-- After `HeaderMap::insert` of a name, that name maps to exactly the one
inserted value. -/
lemma filter_headersInsert_self (hs : List (String × String)) (n v : String) :
    (headersInsert hs n v).filter (fun q => q.1 = n) = [(n, v)] := by
  unfold headersInsert
  rw [List.filter_append]
  have h1 : (hs.filter (fun q => q.1 ≠ n)).filter (fun q : String × String => q.1 = n) = [] := by
    induction hs with
    | nil => rfl
    | cons a t ih =>
      by_cases ha : a.1 = n
      · simp [List.filter_cons, ha, ih]
      · simp [List.filter_cons, ha, ih]
  rw [h1]
  simp [List.filter_cons]

/-! ## Claim theorems for the proxy handler -/

/-- C4 (confirmed): a declared body size above 1 MiB yields `413 Payload Too
Large` immediately — the outcome is the same for every deserializer, every
router, and every actual body, so no body read, parse, or routing work can
influence it — while a declared size of at most 1 MiB never produces a 413
from the handler. -/
theorem C4_size_ceiling
    (parseBody parseBody' : List Nat → Except String ParsedChatRequest)
    (determine_route determine_route' : List Message → Option String → Except String (Option String))
    (ep : String) (req : InboundRequest) (body' : List Nat) :
    (req.sizeHintUpper.getD U64_MAX > 1024 * 1024 →
      chat_completion parseBody determine_route ep req =
        .earlyResponse 413
          ("Request body too large: " ++ toString (req.sizeHintUpper.getD U64_MAX) ++ " bytes") ∧
      chat_completion parseBody determine_route ep req =
        chat_completion parseBody' determine_route' ep
          { req with body := body', headers := req.headers }) ∧
    (req.sizeHintUpper.getD U64_MAX ≤ 1024 * 1024 →
      ∀ diag : String,
        chat_completion parseBody determine_route ep req ≠ .earlyResponse 413 diag) := by
  constructor
  · intro hbig
    constructor
    · unfold chat_completion
      rw [if_pos hbig]
    · unfold chat_completion
      rw [if_pos hbig, if_pos hbig]
  · intro hsmall diag hc
    simp only [chat_completion] at hc
    split at hc
    · omega
    · split at hc
      · exact absurd (HandlerOutcome.earlyResponse.inj hc).1 (by omega)
      · split at hc
        · exact absurd (HandlerOutcome.earlyResponse.inj hc).1 (by omega)
        · exact HandlerOutcome.noConfusion hc

/-- C4 (witness): a 1 MiB + 1 declared size is rejected with 413 regardless
of the body, and a small declared size is never rejected with 413. -/
theorem C4_size_ceiling_witness :
    chat_completion (fun _ => .ok ⟨[], false⟩) (fun _ _ => .ok none) "ep"
        ⟨some (1024 * 1024 + 1), [], [1]⟩ =
      .earlyResponse 413
        ("Request body too large: " ++ toString (1024 * 1024 + 1 : Nat) ++ " bytes") ∧
    chat_completion (fun _ => .ok ⟨[], false⟩) (fun _ _ => .ok none) "ep"
        ⟨some 3, [], [1]⟩ ≠ .earlyResponse 413 "Request body too large: 3 bytes" :=
  ⟨((C4_size_ceiling (fun _ => .ok ⟨[], false⟩) (fun _ => .ok ⟨[], false⟩)
      (fun _ _ => .ok none) (fun _ _ => .ok none) "ep"
      ⟨some (1024 * 1024 + 1), [], [1]⟩ [2]).1 (by decide)).1,
    (C4_size_ceiling (fun _ => .ok ⟨[], false⟩) (fun _ => .ok ⟨[], false⟩)
      (fun _ _ => .ok none) (fun _ _ => .ok none) "ep"
      ⟨some 3, [], [1]⟩ [2]).2 (by decide) "Request body too large: 3 bytes"⟩

/-- C9 (confirmed): a body with no declared upper size bound is treated as
`u64::MAX` bytes and rejected with 413 Payload Too Large no matter how small
the actual body is. -/
theorem C9_no_size_hint_rejected
    (parseBody : List Nat → Except String ParsedChatRequest)
    (determine_route : List Message → Option String → Except String (Option String))
    (ep : String) (headers : List (String × String)) (body : List Nat) :
    chat_completion parseBody determine_route ep ⟨none, headers, body⟩ =
      .earlyResponse 413 ("Request body too large: " ++ toString U64_MAX ++ " bytes") := by
  unfold chat_completion
  rw [if_pos]
  · rfl
  · show (Option.getD none U64_MAX) > 1024 * 1024
    unfold U64_MAX
    norm_num

/-- C7 (confirmed): whenever the handler forwards, the outbound body is
byte-for-byte the inbound body — the parsed request is never re-serialized
into the forwarded bytes. -/
theorem C7_body_forwarded_verbatim
    (parseBody : List Nat → Except String ParsedChatRequest)
    (determine_route : List Message → Option String → Except String (Option String))
    (ep : String) (req : InboundRequest) (fr : ForwardedRequest) (st : Bool)
    (hfwd : chat_completion parseBody determine_route ep req = .forward fr st) :
    fr.body = req.body := by
  simp only [chat_completion] at hfwd
  split at hfwd
  · exact HandlerOutcome.noConfusion hfwd
  · split at hfwd
    · exact HandlerOutcome.noConfusion hfwd
    · split at hfwd
      · exact HandlerOutcome.noConfusion hfwd
      · have h := (HandlerOutcome.forward.inj hfwd).1
        rw [← h]

/-- C7 (witness): a concrete request whose forwarded body equals its inbound
bytes. -/
theorem C7_body_forwarded_verbatim_witness :
    chat_completion (fun _ => .ok ⟨[], false⟩) (fun _ _ => .ok none) "ep"
        ⟨some 3, [], [10, 20, 30]⟩ =
      .forward ⟨"ep", [], [10, 20, 30]⟩ false ∧
    (ForwardedRequest.mk "ep" [] [10, 20, 30]).body =
      (InboundRequest.mk (some 3) [] [10, 20, 30]).body :=
  ⟨by decide,
    C7_body_forwarded_verbatim (fun _ => .ok ⟨[], false⟩) (fun _ _ => .ok none) "ep"
      ⟨some 3, [], [10, 20, 30]⟩ ⟨"ep", [], [10, 20, 30]⟩ false (by decide)⟩

/-- C3 (counterexample): the handler clones the inbound headers, so a
client-supplied provider-hint header passes through untouched when routing
decides `None`: this forwarded request carries a provider-hint header even
though the routing decision was `None`, contradicting "carries no
provider-hint header at all". -/
theorem C3_counterexample :
    chat_completion (fun _ => .ok ⟨[], false⟩) (fun _ _ => .ok none) "ep"
        ⟨some 10, [(ARCH_PROVIDER_HINT_HEADER, "sneaky")], [123]⟩ =
      .forward ⟨"ep", [(ARCH_PROVIDER_HINT_HEADER, "sneaky")], [123]⟩ false ∧
    ([(ARCH_PROVIDER_HINT_HEADER, "sneaky")].filter
        (fun q => q.1 = ARCH_PROVIDER_HINT_HEADER)).length = 1 := by
  refine ⟨by decide, by decide⟩

/-- C3 (amended): the handler never *adds* a provider-hint header when the
routing decision is `None` — the forwarded request's provider-hint entries
are exactly the inbound ones, so the header is absent whenever the client
did not send one — and when the decision is `Some p` the forwarded request
carries exactly one provider-hint header whose value is `p`, any prior value
overwritten. -/
theorem C3_hint_header
    (parseBody : List Nat → Except String ParsedChatRequest)
    (determine_route : List Message → Option String → Except String (Option String))
    (ep : String) (req : InboundRequest) (fr : ForwardedRequest) (st : Bool)
    (creq : ParsedChatRequest) (d : Option String)
    (hpb : parseBody req.body = .ok creq)
    (hdr : determine_route creq.messages
        ((req.headers.find? (fun q => q.1 = "traceparent")).map (fun q => q.2)) = .ok d)
    (hfwd : chat_completion parseBody determine_route ep req = .forward fr st) :
    (d = none →
      fr.headers.filter (fun q => q.1 = ARCH_PROVIDER_HINT_HEADER) =
        req.headers.filter (fun q => q.1 = ARCH_PROVIDER_HINT_HEADER)) ∧
    (∀ p, d = some p →
      fr.headers.filter (fun q => q.1 = ARCH_PROVIDER_HINT_HEADER) =
        [(ARCH_PROVIDER_HINT_HEADER, p)]) := by
  simp only [chat_completion] at hfwd
  split at hfwd
  · exact HandlerOutcome.noConfusion hfwd
  · split at hfwd
    · rename_i err heq
      rw [hpb] at heq
      exact Except.noConfusion heq
    · rename_i creq' heq
      rw [hpb] at heq
      obtain rfl : creq = creq' := Except.ok.inj heq
      split at hfwd
      · rename_i err heq2
        rw [hdr] at heq2
        exact Except.noConfusion heq2
      · rename_i d' heq2
        rw [hdr] at heq2
        obtain rfl : d = d' := Except.ok.inj heq2
        have hh := (HandlerOutcome.forward.inj hfwd).1
        subst hh
        constructor
        · intro hd
          subst hd
          cases htp : (req.headers.find? (fun q => q.1 = "traceparent")).map (fun q => q.2) with
          | none => rfl
          | some tp =>
            exact filter_headersInsert_other req.headers "traceparent"
              ARCH_PROVIDER_HINT_HEADER tp (by decide)
        · intro p hp
          subst hp
          exact filter_headersInsert_self _ ARCH_PROVIDER_HINT_HEADER p

/-- C3 (witness): with no inbound hint header, a `Some "gpt-4"` decision
forwards exactly one hint header valued `gpt-4`; with a `None` decision the
forwarded hint entries equal the inbound ones. -/
theorem C3_hint_header_witness :
    ((fun (_ : List Nat) => (.ok ⟨[], false⟩ : Except String ParsedChatRequest)) [7] =
      .ok ⟨[], false⟩) ∧
    chat_completion (fun _ => .ok ⟨[], false⟩) (fun _ _ => .ok (some "gpt-4")) "ep"
        ⟨some 1, [("accept", "a")], [7]⟩ =
      .forward ⟨"ep", [("accept", "a"), (ARCH_PROVIDER_HINT_HEADER, "gpt-4")], [7]⟩ false ∧
    ((some "gpt-4" = (none : Option String) →
      (ForwardedRequest.mk "ep" [("accept", "a"), (ARCH_PROVIDER_HINT_HEADER, "gpt-4")] [7]).headers.filter
          (fun q => q.1 = ARCH_PROVIDER_HINT_HEADER) =
        (InboundRequest.mk (some 1) [("accept", "a")] [7]).headers.filter
          (fun q => q.1 = ARCH_PROVIDER_HINT_HEADER)) ∧
    (∀ p, some "gpt-4" = some p →
      (ForwardedRequest.mk "ep" [("accept", "a"), (ARCH_PROVIDER_HINT_HEADER, "gpt-4")] [7]).headers.filter
          (fun q => q.1 = ARCH_PROVIDER_HINT_HEADER) =
        [(ARCH_PROVIDER_HINT_HEADER, p)])) :=
  ⟨by decide, by decide,
    C3_hint_header (fun _ => .ok ⟨[], false⟩) (fun _ _ => .ok (some "gpt-4")) "ep"
      ⟨some 1, [("accept", "a")], [7]⟩
      ⟨"ep", [("accept", "a"), (ARCH_PROVIDER_HINT_HEADER, "gpt-4")], [7]⟩ false
      ⟨[], false⟩ (some "gpt-4") (by decide) (by decide) (by decide)⟩

/-- Function `chunkData` distributes over append. -/
lemma chunkData_append (l₁ l₂ : List StreamItem) :
    chunkData (l₁ ++ l₂) = chunkData l₁ ++ chunkData l₂ := by
  induction l₁ with
  | nil => rfl
  | cons it rest ih =>
    cases it with
    | chunk c => simp [chunkData, ih]
    | ioError => simp [chunkData, ih]

/-- The relay invariant: the channel never exceeds its capacity, and the
delivered chunks followed by the buffered chunks are exactly the chunk data
of the error-free prefix of upstream items the producer has consumed so
far — in order, without duplication or loss. -/
lemma relay_invariant (items : List StreamItem) (s : RelayState)
    (hreach : RelayReachable items s) :
    s.channel.length ≤ RELAY_CHANNEL_CAPACITY ∧
    ∃ pre : List StreamItem,
      items = pre ++ s.upstream ∧
      (∀ it ∈ pre, ∃ c, it = .chunk c) ∧
      s.received ++ s.channel = chunkData pre := by
  induction hreach with
  | refl =>
    exact ⟨by simp [initRelay, RELAY_CHANNEL_CAPACITY], [], by simp [initRelay], by simp,
      by simp [initRelay, chunkData]⟩
  | tail hab hstep ih =>
    obtain ⟨hcap, pre, hsplit, hall, hdata⟩ := ih
    cases hstep with
    | produce c rest ch rcv hlen =>
      refine ⟨by simpa using hlen, pre ++ [.chunk c], ?_, ?_, ?_⟩
      · simp only at hsplit
        simp [hsplit]
      · intro it hit
        rcases List.mem_append.mp hit with h | h
        · exact hall it h
        · exact ⟨c, by simpa using h⟩
      · simp only at hdata
        simp [chunkData_append, chunkData, ← hdata]
    | stopError rest ch rcv rd =>
      exact ⟨hcap, pre, hsplit, hall, hdata⟩
    | stopEnd ch rcv rd =>
      exact ⟨hcap, pre, hsplit, hall, hdata⟩
    | stopDropped up ch rcv =>
      exact ⟨hcap, pre, hsplit, hall, hdata⟩
    | deliver c ch rcv up pd =>
      refine ⟨?_, pre, hsplit, hall, ?_⟩
      · simp only [List.length_cons] at hcap
        simp only [RelayState.channel]
        omega
      · simp only at hdata
        simp [← hdata]
    | dropReceiver up ch rcv pd =>
      exact ⟨hcap, pre, hsplit, hall, hdata⟩

/-- C8 (confirmed): in streaming mode, along every interleaving of the relay,
at most 16 chunks are ever buffered-but-unsent (channel capacity bound /
backpressure); the delivered-then-buffered chunks are exactly, in order, the
chunk data of the error-free consumed prefix of the upstream (no chunk
duplicated, dropped, or reordered, and nothing — in particular no
synthesized error frame — is relayed from beyond an upstream error, which
stops the producer); and under normal completion (upstream drained, channel
emptied) the client received exactly the upstream chunks in arrival order. -/
theorem C8_streaming_relay (items : List StreamItem) (s : RelayState)
    (hreach : RelayReachable items s) :
    s.channel.length ≤ RELAY_CHANNEL_CAPACITY ∧
    (∃ pre : List StreamItem,
      items = pre ++ s.upstream ∧
      (∀ it ∈ pre, ∃ c, it = .chunk c) ∧
      s.received ++ s.channel = chunkData pre) ∧
    (s.upstream = [] → s.channel = [] → s.received = chunkData items) := by
  obtain ⟨hcap, pre, hsplit, hall, hdata⟩ := relay_invariant items s hreach
  refine ⟨hcap, ⟨pre, hsplit, hall, hdata⟩, ?_⟩
  intro hup hch
  rw [hup, List.append_nil] at hsplit
  rw [hch, List.append_nil] at hdata
  rw [hsplit]
  exact hdata

/-- C8 (witness): an upstream emitting chunks `A, B, C` in order; after a
full produce/deliver interleaving and stream end, the client received
exactly `A, B, C` in order. -/
theorem C8_streaming_relay_witness :
    RelayReachable [.chunk [65], .chunk [66], .chunk [67]]
      ⟨[], [], [[65], [66], [67]], true, false⟩ ∧
    (RelayState.mk [] [] [[65], [66], [67]] true false).received =
      chunkData [.chunk [65], .chunk [66], .chunk [67]] := by
  have h0 : RelayReachable [.chunk [65], .chunk [66], .chunk [67]]
      (initRelay [.chunk [65], .chunk [66], .chunk [67]]) := Relation.ReflTransGen.refl
  have h1 := Relation.ReflTransGen.tail h0
    (RelayStep.produce [65] [.chunk [66], .chunk [67]] [] [] (by decide))
  have h2 := Relation.ReflTransGen.tail h1
    (RelayStep.deliver [65] [] [] [.chunk [66], .chunk [67]] false)
  have h3 := Relation.ReflTransGen.tail h2
    (RelayStep.produce [66] [.chunk [67]] [] [[65]] (by decide))
  have h4 := Relation.ReflTransGen.tail h3
    (RelayStep.deliver [66] [] [[65]] [.chunk [67]] false)
  have h5 := Relation.ReflTransGen.tail h4
    (RelayStep.produce [67] [] [] [[65], [66]] (by decide))
  have h6 := Relation.ReflTransGen.tail h5
    (RelayStep.deliver [67] [] [[65], [66]] [] false)
  have h7 := Relation.ReflTransGen.tail h6
    (RelayStep.stopEnd [] [[65], [66], [67]] false)
  exact ⟨h7, (C8_streaming_relay [.chunk [65], .chunk [66], .chunk [67]]
    ⟨[], [], [[65], [66], [67]], true, false⟩ h7).2.2 rfl rfl⟩

end Archgw
